import Mathlib

/-
Verification of the bounded-retry HTTP fetch logic of the
Audio-Detection-ML data-acquisition pipeline.

The three pipeline scripts each contain a near-identical retry loop:

    for attempt in range(max_retries):
        try:
            response = requests.get(url, headers=headers, params=params, ...)
            response.raise_for_status()
            return response.json()
        except Exception as e:
            backoff_time = sleep_time * (2**attempt)
            time.sleep(backoff_time)
    raise RuntimeError(...)

We embed this loop as a pure function producing a trace: the number of
outbound requests issued, the list of backoff delays slept (in order), and
the terminal outcome (a returned parsed body, or the exhaustion error).
The network is abstracted as a transport oracle mapping the attempt index
to what `requests.get` does on that attempt, and JSON decoding as a
`parse` function (`none` models `response.json()` raising on an
unparsable body).
-/

namespace AudioDetectionML

/-- An HTTP response as the scripts see it: a numeric status code and a raw
body (the input later given to `response.json()`). -/
structure HttpResponse where
  status : Nat
  body : String
deriving DecidableEq, Repr

/-- What one call to `requests.get` does: either it yields a response, or it
raises a transport-level exception (timeout, connection error). -/
inductive TransportResult where
  | response (r : HttpResponse)
  | netError
deriving DecidableEq, Repr

/-- Terminal outcome of one whole fetch call: the parsed body returned by
`return response.json()`, or the `RuntimeError` raised after the loop
exhausts all `max_retries` attempts. -/
inductive FetchOutcome where
  | ok (body : String)
  | exhaustedRetries
deriving DecidableEq, Repr

/-- Observable trace of one fetch call: how many outbound requests were
issued, which backoff delays were slept (in order), and the terminal
outcome. -/
structure FetchTrace where
  attempts : Nat
  sleeps : List Nat
  result : FetchOutcome
deriving DecidableEq, Repr

/-- `response.raise_for_status()` raises exactly when the status code lies
in the 4xx or 5xx range. -/
def raiseForStatusRaises (status : Nat) : Bool :=
  decide (400 ≤ status) && decide (status < 600)

/-- One iteration of the `try` block at attempt index `i`: `requests.get`
may raise, `raise_for_status` raises for 4xx/5xx, and `response.json()`
raises when the body does not parse. `some body` means the iteration
returns the parsed body; `none` means some exception reached the `except`
handler. The Python handler catches every `Exception` alike, so the trace
does not depend on which step failed. -/
def attemptOnce (transport : Nat → TransportResult)
    (parse : String → Option String) (i : Nat) : Option String :=
  match transport i with
  | .netError => none
  | .response r =>
      if raiseForStatusRaises r.status then none else parse r.body

/-- The retry loop, starting at attempt index `i` with `remaining`
iterations left. A failed iteration always sleeps `sleep_time * 2 ^ i`
(the `except` block runs unconditionally, including on the final
iteration) and recurses; a successful iteration returns at once. When the
loop runs out of iterations the exhaustion error is raised. -/
def fetchFrom (transport : Nat → TransportResult)
    (parse : String → Option String) (sleep_time i : Nat) :
    Nat → FetchTrace
  | 0 => ⟨0, [], .exhaustedRetries⟩
  | remaining + 1 =>
      match attemptOnce transport parse i with
      | some body => ⟨1, [], .ok body⟩
      | none =>
          let rest := fetchFrom transport parse sleep_time (i + 1) remaining
          ⟨rest.attempts + 1, sleep_time * 2 ^ i :: rest.sleeps, rest.result⟩

/-- `get_albums_from_spotify` of `src/scripts/get_albums.py`: the retry
loop run from attempt index 0 with `max_retries` iterations. -/
def get_albums_from_spotify (transport : Nat → TransportResult)
    (parse : String → Option String) (max_retries sleep_time : Nat) :
    FetchTrace :=
  fetchFrom transport parse sleep_time 0 max_retries

/-- `fetch_album_songs_from_spotify` of `src/scripts/get_songs.py`: the
same loop textually (different URL and params, which the transport oracle
absorbs; it raises `Exception` where `get_albums.py` raises
`RuntimeError`, both modelled as `exhaustedRetries`). -/
def fetch_album_songs_from_spotify (transport : Nat → TransportResult)
    (parse : String → Option String) (max_retries sleep_time : Nat) :
    FetchTrace :=
  fetchFrom transport parse sleep_time 0 max_retries

/-- Terminal outcome of `get_artist_spotify`, which first acquires a
bearer token and re-raises immediately when that fails. -/
inductive ArtistFetchOutcome where
  | ok (body : String)
  | exhaustedRetries
  | tokenError
deriving DecidableEq, Repr

/-- Observable trace of one `get_artist_spotify` call. -/
structure ArtistFetchTrace where
  attempts : Nat
  sleeps : List Nat
  result : ArtistFetchOutcome
deriving DecidableEq, Repr

/-- `get_artist_spotify` of `src/scripts/get_artists.py`: acquire the
token once (`none` models `get_spotify_access_token()` raising, in which
case the function re-raises before the loop begins), then run the same
retry loop from attempt index 0. -/
def get_artist_spotify (token : Option String)
    (transport : Nat → TransportResult) (parse : String → Option String)
    (max_retries sleep_time : Nat) : ArtistFetchTrace :=
  match token with
  | none => ⟨0, [], .tokenError⟩
  | some _ =>
      let t := fetchFrom transport parse sleep_time 0 max_retries
      ⟨t.attempts, t.sleeps,
        match t.result with
        | .ok body => .ok body
        | .exhaustedRetries => .exhaustedRetries⟩

/-! ### Concrete transports and parsers used as witness inputs -/

/-- A transport on which `requests.get` raises on every attempt. -/
def netFailTransport : Nat → TransportResult := fun _ => .netError

/-- A transport answering every attempt with HTTP 404 (a fatal,
non-retriable status in the spec's taxonomy). -/
def always404Transport : Nat → TransportResult :=
  fun _ => .response ⟨404, "not found"⟩

/-- A transport answering every attempt with HTTP 500. -/
def always500Transport : Nat → TransportResult :=
  fun _ => .response ⟨500, "server error"⟩

/-- A transport answering every attempt with HTTP 200 and a fixed body. -/
def always200Transport : Nat → TransportResult :=
  fun _ => .response ⟨200, "payload"⟩

/-- A transport that fails at transport level on attempts 0 and 1 and
answers HTTP 200 with a fixed body from attempt 2 on. -/
def failTwiceTransport : Nat → TransportResult :=
  fun i => if i < 2 then .netError else .response ⟨200, "payload"⟩

/-- A parse function under which every body parses to itself. -/
def idParse : String → Option String := fun s => some s

/-- A parse function under which no body parses: models
`response.json()` raising on an empty or malformed body. -/
def noParse : String → Option String := fun _ => none

/-! ### Core lemmas about the retry loop -/

/-- Prepending the delay of attempt `i` to the delays of attempts
`i+1, …, i+k` gives the delays of attempts `i, …, i+k`. -/
theorem cons_pow_range (b i k : Nat) :
    b * 2 ^ i :: (List.range k).map (fun j => b * 2 ^ (i + 1 + j)) =
      (List.range (k + 1)).map (fun j => b * 2 ^ (i + j)) := by
  rw [List.range_succ_eq_map, List.map_cons, List.map_map]
  refine congrArg₂ List.cons (by rw [Nat.add_zero]) ?_
  refine List.map_congr_left ?_
  intro j _
  simp only [Function.comp_apply, Nat.succ_eq_add_one]
  have hx : i + 1 + j = i + (j + 1) := by omega
  rw [hx]

/-- If all `remaining` attempts starting at index `i` fail, the loop issues
exactly `remaining` requests, sleeps after every one of them, and ends in
exhaustion. -/
theorem fetchFrom_all_fail (t : Nat → TransportResult)
    (p : String → Option String) (b i r : Nat)
    (h : ∀ j, j < r → attemptOnce t p (i + j) = none) :
    fetchFrom t p b i r =
      ⟨r, (List.range r).map (fun j => b * 2 ^ (i + j)),
        .exhaustedRetries⟩ := by
  induction r generalizing i with
  | zero => rfl
  | succ r ih =>
      have h0 : attemptOnce t p i = none := by
        have := h 0 (Nat.succ_pos r)
        simpa using this
      have hrest : ∀ j, j < r → attemptOnce t p (i + 1 + j) = none := by
        intro j hj
        have := h (j + 1) (Nat.succ_lt_succ hj)
        simpa [Nat.add_assoc, Nat.add_comm 1 j] using this
      simp only [fetchFrom, h0, ih (i + 1) hrest]
      rw [← cons_pow_range]

/-- Whatever the transport does, the delays slept by a run starting at
index `i` are exactly `b * 2 ^ (i + j)` for `j` below the number of
sleeps. -/
theorem fetchFrom_sleeps_eq (t : Nat → TransportResult)
    (p : String → Option String) (b : Nat) :
    ∀ (r i : Nat),
      (fetchFrom t p b i r).sleeps =
        (List.range (fetchFrom t p b i r).sleeps.length).map
          (fun j => b * 2 ^ (i + j)) := by
  intro r
  induction r with
  | zero => intro i; rfl
  | succ r ih =>
      intro i
      rcases hA : attemptOnce t p i with _ | body
      · simp only [fetchFrom, hA]
        rw [ih (i + 1), List.length_cons, List.length_map,
          List.length_range, cons_pow_range]
      · simp [fetchFrom, hA]

/-- If the attempts at indices `i, i+1, …, i+k-1` fail and the attempt at
index `i + k` succeeds with `body`, then (provided the bound allows
attempt `i + k` to run) the loop issues exactly `k + 1` requests, sleeps
exactly after each of the `k` failures, and returns `body`. -/
theorem fetchFrom_succeeds_after (t : Nat → TransportResult)
    (p : String → Option String) (b : Nat) (body : String) :
    ∀ (k i r : Nat), (∀ j, j < k → attemptOnce t p (i + j) = none) →
      attemptOnce t p (i + k) = some body → k < r →
      fetchFrom t p b i r =
        ⟨k + 1, (List.range k).map (fun j => b * 2 ^ (i + j)), .ok body⟩ := by
  intro k
  induction k with
  | zero =>
      intro i r _ hsucc hr
      match r, hr with
      | r + 1, _ =>
          have h0 : attemptOnce t p i = some body := by simpa using hsucc
          simp [fetchFrom, h0]
  | succ k ih =>
      intro i r hfail hsucc hr
      match r, hr with
      | r + 1, hr =>
          have h0 : attemptOnce t p i = none := by
            have := hfail 0 (Nat.succ_pos k)
            simpa using this
          have hfail' : ∀ j, j < k → attemptOnce t p (i + 1 + j) = none := by
            intro j hj
            have := hfail (j + 1) (Nat.succ_lt_succ hj)
            simpa [Nat.add_assoc, Nat.add_comm 1 j] using this
          have hsucc' : attemptOnce t p (i + 1 + k) = some body := by
            have hx : i + 1 + k = i + (k + 1) := by ring
            rw [hx]; exact hsucc
          have hr' : k < r := Nat.lt_of_succ_lt_succ hr
          simp only [fetchFrom, h0, ih (i + 1) r hfail' hsucc' hr']
          rw [← cons_pow_range]

/-- The `j`-th delay slept by a run starting at index `i` equals
`b * 2 ^ (i + j)`. -/
theorem fetchFrom_sleeps_get (t : Nat → TransportResult)
    (p : String → Option String) (b r i j : Nat)
    (h : j < (fetchFrom t p b i r).sleeps.length) :
    (fetchFrom t p b i r).sleeps.get ⟨j, h⟩ = b * 2 ^ (i + j) := by
  have hs := fetchFrom_sleeps_eq t p b r i
  rw [List.get_of_eq hs]
  simp

/-! ### Claim theorems -/

/-- Claim C1: for every `max_retries = n ≥ 1` and every request whose every
attempt fails, the fetch performs exactly `n` attempts (`n` outbound
requests) and then raises the exhaustion error — never `n + 1` and never
fewer. Stated for `get_albums_from_spotify` and `get_artist_spotify` (with
a successfully acquired token), the two functions the claim cites. -/
theorem retry_exhaustion_exactly_n (t : Nat → TransportResult)
    (p : String → Option String) (n b : Nat) (tok : String) (hn : 1 ≤ n)
    (hfail : ∀ j, attemptOnce t p j = none) :
    (get_albums_from_spotify t p n b).attempts = n ∧
      (get_albums_from_spotify t p n b).result = .exhaustedRetries ∧
      (get_artist_spotify (some tok) t p n b).attempts = n ∧
      (get_artist_spotify (some tok) t p n b).result =
        .exhaustedRetries := by
  have h := fetchFrom_all_fail t p b 0 n (fun j _ => hfail (0 + j))
  refine ⟨?_, ?_, ?_, ?_⟩ <;>
    simp [get_albums_from_spotify, get_artist_spotify, h]

/-- Witness for C1 at `n = 3`, `b = 1`, a transport failing at transport
level on every attempt. -/
theorem retry_exhaustion_exactly_n_witness :
    (get_albums_from_spotify netFailTransport idParse 3 1).attempts = 3 ∧
      (get_albums_from_spotify netFailTransport idParse 3 1).result =
        .exhaustedRetries ∧
      (get_artist_spotify (some "tok") netFailTransport idParse 3 1).attempts
        = 3 ∧
      (get_artist_spotify (some "tok") netFailTransport idParse 3 1).result =
        .exhaustedRetries :=
  retry_exhaustion_exactly_n netFailTransport idParse 3 1 "tok"
    (by decide) (fun j => rfl)

/-- Claim C2: the backoff delay slept after the failed attempt at index `i`
(0-based) equals `base_delay * 2 ^ i`: the list of slept delays of any
`get_albums_from_spotify` call is index-wise `b * 2 ^ i`. Stated for
`get_albums_from_spotify`; `fetch_album_songs_from_spotify` is included as
a second conjunct since the claim cites both. -/
theorem backoff_delay_formula (t : Nat → TransportResult)
    (p : String → Option String) (n b : Nat) :
    (get_albums_from_spotify t p n b).sleeps =
      (List.range (get_albums_from_spotify t p n b).sleeps.length).map
        (fun i => b * 2 ^ i) ∧
      (fetch_album_songs_from_spotify t p n b).sleeps =
        (List.range
            (fetch_album_songs_from_spotify t p n b).sleeps.length).map
          (fun i => b * 2 ^ i) := by
  have h := fetchFrom_sleeps_eq t p b n 0
  simp only [Nat.zero_add] at h
  exact ⟨h, h⟩

/-- Claim C6: for every `max_retries = n` and `k < n`, a fetch whose first
`k` attempts fail and whose attempt at index `k` succeeds performs exactly
`k + 1` attempts, returns the successful body, and sleeps only after the
`k` failures — never after the success. -/
theorem success_on_attempt_k (t : Nat → TransportResult)
    (p : String → Option String) (n b k : Nat) (body : String) (hk : k < n)
    (hfail : ∀ j, j < k → attemptOnce t p j = none)
    (hsucc : attemptOnce t p k = some body) :
    (get_albums_from_spotify t p n b).attempts = k + 1 ∧
      (get_albums_from_spotify t p n b).result = .ok body ∧
      (get_albums_from_spotify t p n b).sleeps.length = k := by
  have h := fetchFrom_succeeds_after t p b body k 0 n
    (fun j hj => by simpa using hfail j hj) (by simpa using hsucc) hk
  simp [get_albums_from_spotify, h]

/-- Witness for C6: transport failing on attempts 0 and 1 and answering
HTTP 200 from attempt 2 on; `n = 3`, `k = 2`. -/
theorem success_on_attempt_k_witness :
    (get_albums_from_spotify failTwiceTransport idParse 3 1).attempts = 3 ∧
      (get_albums_from_spotify failTwiceTransport idParse 3 1).result =
        .ok "payload" ∧
      (get_albums_from_spotify failTwiceTransport idParse 3 1).sleeps.length
        = 2 :=
  success_on_attempt_k failTwiceTransport idParse 3 1 2 "payload"
    (by decide) (fun j hj => by interval_cases j <;> rfl) rfl

/-- Claim C7: when all permitted attempts are consumed without success, the
fetch signals exhaustion as the terminal failure — it never returns a
body. Stated for `fetch_album_songs_from_spotify` and
`get_albums_from_spotify`, the two functions the claim cites. -/
theorem exhaustion_never_swallowed (t : Nat → TransportResult)
    (p : String → Option String) (n b : Nat)
    (hfail : ∀ j, j < n → attemptOnce t p j = none) :
    (fetch_album_songs_from_spotify t p n b).result = .exhaustedRetries ∧
      (∀ body,
        (fetch_album_songs_from_spotify t p n b).result ≠ .ok body) ∧
      (get_albums_from_spotify t p n b).result = .exhaustedRetries ∧
      ∀ body, (get_albums_from_spotify t p n b).result ≠ .ok body := by
  have h := fetchFrom_all_fail t p b 0 n
    (fun j hj => by simpa using hfail j hj)
  refine ⟨?_, ?_, ?_, ?_⟩ <;>
    simp [fetch_album_songs_from_spotify, get_albums_from_spotify, h]

/-- Witness for C7 at `n = 2`, `b = 1`, all attempts answered HTTP 500. -/
theorem exhaustion_never_swallowed_witness :
    (fetch_album_songs_from_spotify always500Transport idParse 2 1).result =
        .exhaustedRetries ∧
      (∀ body,
        (fetch_album_songs_from_spotify always500Transport idParse 2
            1).result ≠ .ok body) ∧
      (get_albums_from_spotify always500Transport idParse 2 1).result =
        .exhaustedRetries ∧
      ∀ body, (get_albums_from_spotify always500Transport idParse 2
          1).result ≠ .ok body :=
  exhaustion_never_swallowed always500Transport idParse 2 1
    (fun j _ => rfl)

/-- Claim C8: within any single `get_albums_from_spotify` call with
`base_delay > 0`, the sequence of backoff delays actually slept is
strictly increasing across successive retry attempts. -/
theorem backoff_strictly_increasing (t : Nat → TransportResult)
    (p : String → Option String) (n b : Nat) (hb : 0 < b) (i j : Nat)
    (hij : i < j)
    (hj : j < (get_albums_from_spotify t p n b).sleeps.length) :
    (get_albums_from_spotify t p n b).sleeps.get ⟨i, Nat.lt_trans hij hj⟩ <
      (get_albums_from_spotify t p n b).sleeps.get ⟨j, hj⟩ := by
  have hgi := fetchFrom_sleeps_get t p b n 0 i (Nat.lt_trans hij hj)
  have hgj := fetchFrom_sleeps_get t p b n 0 j hj
  simp only [Nat.zero_add] at hgi hgj
  show (fetchFrom t p b 0 n).sleeps.get ⟨i, Nat.lt_trans hij hj⟩ <
    (fetchFrom t p b 0 n).sleeps.get ⟨j, hj⟩
  rw [hgi, hgj]
  have h2 : 2 ^ i < 2 ^ j := Nat.pow_lt_pow_right (by omega) hij
  exact mul_lt_mul_of_pos_left h2 hb

/-- Witness for C8: with an always-failing transport, `n = 3`, `b = 1`,
the first slept delay is below the third. -/
theorem backoff_strictly_increasing_witness :
    (get_albums_from_spotify netFailTransport idParse 3 1).sleeps.get
        ⟨0, by decide⟩ <
      (get_albums_from_spotify netFailTransport idParse 3 1).sleeps.get
        ⟨2, by decide⟩ :=
  backoff_strictly_increasing netFailTransport idParse 3 1 (by decide) 0 2
    (by decide) (by decide)

/-- Claim C9: in `get_artist_spotify`, a failure to acquire the bearer
token raises immediately, with zero fetch attempts and zero sleeps — the
retry bound governs only the HTTP fetch, never token acquisition. -/
theorem token_failure_zero_attempts (t : Nat → TransportResult)
    (p : String → Option String) (n b : Nat) :
    (get_artist_spotify none t p n b).attempts = 0 ∧
      (get_artist_spotify none t p n b).sleeps = [] ∧
      (get_artist_spotify none t p n b).result = .tokenError :=
  ⟨rfl, rfl, rfl⟩

/-- An attempt answered with a 4xx/5xx status fails:
`response.raise_for_status()` raises and the handler catches it. -/
theorem attemptOnce_of_error_status (t : Nat → TransportResult)
    (p : String → Option String) (i : Nat) (resp : HttpResponse)
    (ht : t i = .response resp) (h4 : 400 ≤ resp.status)
    (h6 : resp.status < 600) : attemptOnce t p i = none := by
  unfold attemptOnce
  rw [ht]
  have hr : raiseForStatusRaises resp.status = true := by
    unfold raiseForStatusRaises
    simp [h4, h6]
  simp [hr]

/-- An attempt answered with an acceptable status but an unparsable body
fails: `response.json()` raises inside the `try` block and the handler
catches it. -/
theorem attemptOnce_of_unparsable (t : Nat → TransportResult)
    (p : String → Option String) (i : Nat) (resp : HttpResponse)
    (ht : t i = .response resp) (hs : resp.status < 400)
    (hp : p resp.body = none) : attemptOnce t p i = none := by
  unfold attemptOnce
  rw [ht]
  have hr : raiseForStatusRaises resp.status = false := by
    unfold raiseForStatusRaises
    simp only [Bool.and_eq_false_iff, decide_eq_false_iff_not]
    omega
  simp [hr, hp]

/-- Counterexample to claim C3 as stated: against a transport answering
HTTP 404 (fatal per the spec's taxonomy) on every attempt, with
`max_retries = 3` and `base_delay = 1`, `get_albums_from_spotify` performs
3 attempts and 3 sleeps and raises exhaustion — not 1 attempt with zero
sleeps and an immediate fatal error. -/
theorem fatal_status_not_short_circuited :
    (get_albums_from_spotify always404Transport idParse 3 1).attempts = 3 ∧
      (get_albums_from_spotify always404Transport idParse 3 1).sleeps =
        [1, 2, 4] ∧
      (get_albums_from_spotify always404Transport idParse 3 1).result =
        .exhaustedRetries ∧
      ¬((get_albums_from_spotify always404Transport idParse 3 1).attempts
            = 1 ∧
          (get_albums_from_spotify always404Transport idParse 3 1).sleeps
            = []) := by
  refine ⟨rfl, rfl, rfl, ?_⟩
  intro hcontra
  exact absurd hcontra.1 (by decide)

/-- Claim C3 (amended): the scripts' `except Exception` handler draws no
fatal/transient distinction, so a fatal status code (any 4xx other than
429, e.g. 401, 403, 404) is retried like any other failure: every attempt
fails, each failure is slept on (including the last), and after
`max_retries` attempts the exhaustion error — not a fatal error — is
raised. -/
theorem fatal_status_retried (t : Nat → TransportResult)
    (p : String → Option String) (n b : Nat)
    (hfatal : ∀ i, ∃ resp, t i = .response resp ∧ 400 ≤ resp.status ∧
      resp.status < 500 ∧ resp.status ≠ 429) :
    (get_albums_from_spotify t p n b).attempts = n ∧
      (get_albums_from_spotify t p n b).sleeps.length = n ∧
      (get_albums_from_spotify t p n b).result = .exhaustedRetries := by
  have hfail : ∀ j, j < n → attemptOnce t p (0 + j) = none := by
    intro j _
    obtain ⟨resp, ht, h4, h5, _⟩ := hfatal (0 + j)
    exact attemptOnce_of_error_status t p (0 + j) resp ht h4 (by omega)
  have h := fetchFrom_all_fail t p b 0 n hfail
  simp [get_albums_from_spotify, h]

/-- Witness for the amended C3 at the 404 transport, `n = 3`, `b = 1`. -/
theorem fatal_status_retried_witness :
    (get_albums_from_spotify always404Transport idParse 3 1).attempts = 3 ∧
      (get_albums_from_spotify always404Transport idParse 3 1).sleeps.length
        = 3 ∧
      (get_albums_from_spotify always404Transport idParse 3 1).result =
        .exhaustedRetries :=
  fatal_status_retried always404Transport idParse 3 1
    (fun _ => ⟨⟨404, "not found"⟩, rfl, by decide, by decide, by decide⟩)

/-- Counterexample to claim C4 as stated: with `max_retries = 3`,
`base_delay = 1` and a transport answering HTTP 500 on every attempt,
`get_albums_from_spotify` does perform 3 attempts, but it sleeps three
times — 1, 2, then 4 seconds, the `except` block also running after the
last failed attempt — not twice. -/
theorem sleep_after_last_attempt :
    (get_albums_from_spotify always500Transport idParse 3 1).attempts = 3 ∧
      (get_albums_from_spotify always500Transport idParse 3 1).sleeps =
        [1, 2, 4] ∧
      (get_albums_from_spotify always500Transport idParse 3 1).result =
        .exhaustedRetries ∧
      (get_albums_from_spotify always500Transport idParse 3 1).sleeps ≠
        [1, 2] := by
  refine ⟨rfl, rfl, rfl, ?_⟩
  intro hcontra
  exact absurd hcontra (by decide)

/-- Claim C4 (amended): for `max_retries = 3` and `base_delay = 1`,
against any transport answering HTTP 500 on every attempt,
`get_albums_from_spotify` performs exactly 3 attempts and sleeps exactly
three times — 1, 2 and 4 seconds, a sleep following every failed attempt
including the last — before raising the exhaustion error. -/
theorem always_500_three_attempts_three_sleeps
    (t : Nat → TransportResult) (p : String → Option String)
    (h500 : ∀ i, ∃ body, t i = .response ⟨500, body⟩) :
    (get_albums_from_spotify t p 3 1).attempts = 3 ∧
      (get_albums_from_spotify t p 3 1).sleeps = [1, 2, 4] ∧
      (get_albums_from_spotify t p 3 1).result = .exhaustedRetries := by
  have hfail : ∀ j, j < 3 → attemptOnce t p (0 + j) = none := by
    intro j _
    obtain ⟨body, ht⟩ := h500 (0 + j)
    exact attemptOnce_of_error_status t p (0 + j) ⟨500, body⟩ ht
      (show (400 : Nat) ≤ 500 by decide) (show (500 : Nat) < 600 by decide)
  have h := fetchFrom_all_fail t p 1 0 3 hfail
  refine ⟨?_, ?_, ?_⟩ <;> simp [get_albums_from_spotify, h] <;> decide

/-- Witness for the amended C4 at the concrete 500 transport. -/
theorem always_500_three_attempts_three_sleeps_witness :
    (get_albums_from_spotify always500Transport idParse 3 1).attempts = 3 ∧
      (get_albums_from_spotify always500Transport idParse 3 1).sleeps =
        [1, 2, 4] ∧
      (get_albums_from_spotify always500Transport idParse 3 1).result =
        .exhaustedRetries :=
  always_500_three_attempts_three_sleeps always500Transport idParse
    (fun _ => ⟨"server error", rfl⟩)

/-- Counterexample to claim C5 as stated: against a transport answering
HTTP 200 on every attempt with a body that does not parse, with
`max_retries = 3` and `base_delay = 1`, `get_albums_from_spotify` performs
3 attempts — not exactly one — and raises exhaustion instead of surfacing
the body to the caller. -/
theorem malformed_body_is_retried_counterexample :
    (get_albums_from_spotify always200Transport noParse 3 1).attempts = 3 ∧
      (get_albums_from_spotify always200Transport noParse 3 1).result =
        .exhaustedRetries ∧
      (get_albums_from_spotify always200Transport noParse 3 1).attempts
        ≠ 1 := by
  refine ⟨rfl, rfl, ?_⟩
  intro hcontra
  exact absurd hcontra (by decide)

/-- Claim C5 (amended): `response.json()` runs inside the `try` block, so
a response with a transport-level success and acceptable status code but
an empty or malformed (unparsable) body IS retried: each such attempt
counts as a failure, is slept on, and when every attempt has an
unparsable body the call consumes all `max_retries` attempts and raises
the exhaustion error rather than surfacing the raw body. Stated for
`get_albums_from_spotify` and `fetch_album_songs_from_spotify`, the two
functions the claim cites. -/
theorem malformed_body_is_retried (t : Nat → TransportResult)
    (p : String → Option String) (n b : Nat)
    (hbad : ∀ i, ∃ resp, t i = .response resp ∧ resp.status < 400 ∧
      p resp.body = none) :
    (get_albums_from_spotify t p n b).attempts = n ∧
      (get_albums_from_spotify t p n b).result = .exhaustedRetries ∧
      (fetch_album_songs_from_spotify t p n b).attempts = n ∧
      (fetch_album_songs_from_spotify t p n b).result =
        .exhaustedRetries := by
  have hfail : ∀ j, j < n → attemptOnce t p (0 + j) = none := by
    intro j _
    obtain ⟨resp, ht, hs, hp⟩ := hbad (0 + j)
    exact attemptOnce_of_unparsable t p (0 + j) resp ht hs hp
  have h := fetchFrom_all_fail t p b 0 n hfail
  refine ⟨?_, ?_, ?_, ?_⟩ <;>
    simp [get_albums_from_spotify, fetch_album_songs_from_spotify, h]

/-- Witness for the amended C5 at the 200-with-unparsable-body transport,
`n = 3`, `b = 1`. -/
theorem malformed_body_is_retried_witness :
    (get_albums_from_spotify always200Transport noParse 3 1).attempts = 3 ∧
      (get_albums_from_spotify always200Transport noParse 3 1).result =
        .exhaustedRetries ∧
      (fetch_album_songs_from_spotify always200Transport noParse 3
          1).attempts = 3 ∧
      (fetch_album_songs_from_spotify always200Transport noParse 3
          1).result = .exhaustedRetries :=
  malformed_body_is_retried always200Transport noParse 3 1
    (fun _ => ⟨⟨200, "payload"⟩, rfl, by decide, rfl⟩)

/-- Claim C10: called with `max_retries = 0`, `get_albums_from_spotify`
issues zero requests and zero sleeps and immediately raises the
exhaustion error; it never returns a value. -/
theorem zero_retries_immediate_exhaustion (t : Nat → TransportResult)
    (p : String → Option String) (b : Nat) :
    (get_albums_from_spotify t p 0 b).attempts = 0 ∧
      (get_albums_from_spotify t p 0 b).sleeps = [] ∧
      (get_albums_from_spotify t p 0 b).result = .exhaustedRetries :=
  ⟨rfl, rfl, rfl⟩

end AudioDetectionML
